import Mathlib

/-!
Verification development for the curemate_api STT/summary service.

Shallow embedding of the components named by the checked claims:

* `stt_api/services/storage/database_service.py` — job rows, status
  updates, room readiness (`DatabaseService`);
* `stt_api/services/storage/job_manager.py` — job-manager wrappers;
* `stt_api/services/stt/vad_processor.py` and
  `stt_api/domain/streaming_job.py` — VAD processor construction;
* `stt_api/api/stream_endpoints.py` — the `POST /api/v1/stream/create`
  dispatcher;
* `stt_api/services/audio_converter.py` — frame extraction;
* `stt_api/services/stt/whisper_service.py` — the hallucination filter;
* `stt_api/services/pipeline/batch_pipeline.py` — the batch pipeline;
* `stt_api/services/pipeline/stream_pipeline.py` — live finalize.

Python strings are `String`/`List Char`, byte strings are `List Nat`,
dictionaries with statically known keys are structures, machine floats
never enter any modelled comparison except where noted, and fallible
Python code returns `Except`.
-/

/-! ## Job status and type enums (`services/storage/job_manager.py`, class JobStatus) -/

inductive JobStatus where
  | PENDING
  | PROCESSING
  | TRANSCRIBED
  | COMPLETED
  | FAILED
deriving DecidableEq, Repr

/-- String value of a status, as stored in the `status` column
(`JobStatus(Enum)` values in `job_manager.py`). -/
def JobStatus.value : JobStatus → String
  | .PENDING => "PENDING"
  | .PROCESSING => "PROCESSING"
  | .TRANSCRIBED => "TRANSCRIBED"
  | .COMPLETED => "COMPLETED"
  | .FAILED => "FAILED"

/-! ## T_STT_JOB rows and `DatabaseService.update_stt_job_status`
(`services/storage/database_service.py`, lines 113-170).

A summary is a JSON object; its content is opaque to the claims, so it
is modelled as a key/value list. Timestamps are abstract `Nat` ticks. -/

abbrev SummaryDict := List (String × String)

structure STTJobRow where
  job_id : String
  job_type : String
  status : String
  original_transcript : Option String
  structured_summary : Option SummaryDict
  error_message : Option String
  room_id : Option String
  member_id : Option String
  reg_dttm : Nat
  upd_dttm : Nat
  upd_id : String
deriving DecidableEq, Repr

/-- Python truthiness of an optional string argument: `None` and the
empty string are falsy (`if transcript:` in `update_stt_job_status`). -/
def strTruthy : Option String → Bool
  | none => false
  | some s => !s.isEmpty

/-- Python truthiness of an optional dict argument: `None` and the
empty dict are falsy (`if summary:` in `update_stt_job_status`). -/
def dictTruthy : Option SummaryDict → Bool
  | none => false
  | some d => !d.isEmpty

/-- Embedding of `DatabaseService.update_stt_job_status` applied to the
matched row: `update_data` always carries `status`, `upd_dttm`,
`upd_id`, and adds `original_transcript` / `structured_summary` /
`error_message` only when the corresponding argument is truthy. -/
def update_stt_job_status (row : STTJobRow) (status : String)
    (transcript : Option String) (summary : Option SummaryDict)
    (error_message : Option String) (now : Nat) : STTJobRow :=
  let row1 := { row with status := status, upd_dttm := now, upd_id := "system" }
  let row2 := if strTruthy transcript then
      { row1 with original_transcript := transcript } else row1
  let row3 := if dictTruthy summary then
      { row2 with structured_summary := summary } else row2
  if strTruthy error_message then
    { row3 with error_message := error_message } else row3

/-! ## Room readiness
(`DatabaseService.get_room_job_status_summary`, lines 607-678, and
`DatabaseService.is_room_ready_for_summary`, lines 680-728).

A room is modelled by the statuses of its jobs; the SQL aggregate in
`get_room_job_status_summary` counts each status with a `CASE`
expression over the rows of the room. -/

structure RoomStatusSummary where
  total : Nat
  pending : Nat
  processing : Nat
  transcribed : Nat
  completed : Nat
  failed : Nat
deriving DecidableEq, Repr

/-- Embedding of `get_room_job_status_summary` on the list of job
statuses of a room. -/
def get_room_job_status_summary (jobs : List JobStatus) : RoomStatusSummary where
  total := jobs.length
  pending := jobs.countP (· = .PENDING)
  processing := jobs.countP (· = .PROCESSING)
  transcribed := jobs.countP (· = .TRANSCRIBED)
  completed := jobs.countP (· = .COMPLETED)
  failed := jobs.countP (· = .FAILED)

/-- Embedding of `is_room_ready_for_summary`: `total > 0 and pending ==
0 and processing == 0 and ready == total` with `ready = transcribed +
completed`. -/
def is_room_ready_for_summary (jobs : List JobStatus) : Bool :=
  let summary := get_room_job_status_summary jobs
  decide (0 < summary.total) && decide (summary.pending = 0) &&
    decide (summary.processing = 0) &&
    decide (summary.transcribed + summary.completed = summary.total)

/-! ## Theorems for C6 and C10 -/

theorem countP_eq_zero_iff (jobs : List JobStatus) (p : JobStatus → Bool) :
    jobs.countP p = 0 ↔ ∀ s ∈ jobs, p s = false := by
  induction jobs with
  | nil => simp
  | cons a l ih =>
    by_cases h : p a
    · simp [List.countP_cons, h, ih]
    · simp only [Bool.not_eq_true] at h
      simp [List.countP_cons, h, ih]

theorem room_counts_partition (jobs : List JobStatus) :
    jobs.countP (· = .PENDING) + jobs.countP (· = .PROCESSING) +
      jobs.countP (· = .TRANSCRIBED) + jobs.countP (· = .COMPLETED) +
      jobs.countP (· = .FAILED) = jobs.length := by
  induction jobs with
  | nil => simp
  | cons a l ih =>
    cases a <;> simp [List.countP_cons] <;> omega

/-- C6: `is_room_ready_for_summary(r)` returns true iff the room has at
least one job and every job is TRANSCRIBED or COMPLETED; in particular
the implemented condition handles FAILED jobs correctly. -/
theorem is_room_ready_for_summary_iff (jobs : List JobStatus) :
    is_room_ready_for_summary jobs = true ↔
      jobs ≠ [] ∧ ∀ s ∈ jobs, s = .TRANSCRIBED ∨ s = .COMPLETED := by
  unfold is_room_ready_for_summary get_room_job_status_summary
  simp only [Bool.and_eq_true, decide_eq_true_eq]
  constructor
  · rintro ⟨⟨⟨htot, hpend⟩, hproc⟩, hready⟩
    have hpart := room_counts_partition jobs
    have hfail : jobs.countP (· = .FAILED) = 0 := by omega
    refine ⟨by rintro rfl; simp at htot, ?_⟩
    intro s hs
    have hp := (countP_eq_zero_iff jobs _).mp hpend s hs
    have hr := (countP_eq_zero_iff jobs _).mp hproc s hs
    have hf := (countP_eq_zero_iff jobs _).mp hfail s hs
    cases s <;> simp_all
  · rintro ⟨hne, hall⟩
    have hpend : jobs.countP (· = .PENDING) = 0 :=
      (countP_eq_zero_iff jobs _).mpr (by
        intro s hs; rcases hall s hs with h | h <;> simp [h])
    have hproc : jobs.countP (· = .PROCESSING) = 0 :=
      (countP_eq_zero_iff jobs _).mpr (by
        intro s hs; rcases hall s hs with h | h <;> simp [h])
    have hfail : jobs.countP (· = .FAILED) = 0 :=
      (countP_eq_zero_iff jobs _).mpr (by
        intro s hs; rcases hall s hs with h | h <;> simp [h])
    have hpart := room_counts_partition jobs
    have hlen : 0 < jobs.length := List.length_pos.mpr hne
    exact ⟨⟨⟨hlen, hpend⟩, hproc⟩, by omega⟩

theorem update_stt_job_status_base (row : STTJobRow) (status : String)
    (transcript : Option String) (summary : Option SummaryDict)
    (error_message : Option String) (now : Nat) :
    (update_stt_job_status row status transcript summary error_message now)
      = { row with
            status := status, upd_dttm := now, upd_id := "system",
            original_transcript :=
              if strTruthy transcript then transcript else row.original_transcript,
            structured_summary :=
              if dictTruthy summary then summary else row.structured_summary,
            error_message :=
              if strTruthy error_message then error_message else row.error_message } := by
  unfold update_stt_job_status
  by_cases ht : strTruthy transcript <;>
    by_cases hs : dictTruthy summary <;>
      by_cases he : strTruthy error_message <;>
        simp [ht, hs, he]

/-- C10: `update_stt_job_status` writes exactly `status`, `upd_dttm`,
`upd_id` plus the truthy optional columns; `None` or the empty string
(empty dict for the summary) leaves the stored column unchanged, so a
terminal update with `transcript=""` keeps `original_transcript` as it
was, and a status-only update clears neither transcript nor summary. -/
theorem update_stt_job_status_frame (row : STTJobRow) (status : String)
    (transcript : Option String) (summary : Option SummaryDict)
    (error_message : Option String) (now : Nat) :
    (update_stt_job_status row status transcript summary error_message now).status
        = status ∧
    (update_stt_job_status row status transcript summary error_message now).upd_dttm
        = now ∧
    (update_stt_job_status row status transcript summary error_message now).upd_id
        = "system" ∧
    (update_stt_job_status row status transcript summary error_message now).job_id
        = row.job_id ∧
    (update_stt_job_status row status transcript summary error_message now).job_type
        = row.job_type ∧
    (update_stt_job_status row status transcript summary error_message now).room_id
        = row.room_id ∧
    (update_stt_job_status row status transcript summary error_message now).member_id
        = row.member_id ∧
    (update_stt_job_status row status transcript summary error_message now).reg_dttm
        = row.reg_dttm ∧
    (update_stt_job_status row status transcript summary error_message now).original_transcript
        = (if strTruthy transcript then transcript else row.original_transcript) ∧
    (update_stt_job_status row status transcript summary error_message now).structured_summary
        = (if dictTruthy summary then summary else row.structured_summary) ∧
    (update_stt_job_status row status transcript summary error_message now).error_message
        = (if strTruthy error_message then error_message else row.error_message) ∧
    (update_stt_job_status row status (some "") summary error_message now).original_transcript
        = row.original_transcript ∧
    (update_stt_job_status row status none none error_message now).original_transcript
        = row.original_transcript ∧
    (update_stt_job_status row status none none error_message now).structured_summary
        = row.structured_summary := by
  rw [update_stt_job_status_base, update_stt_job_status_base,
    update_stt_job_status_base]
  refine ⟨rfl, rfl, rfl, rfl, rfl, rfl, rfl, rfl, rfl, rfl, rfl, ?_, ?_, ?_⟩ <;> rfl

/-! ## Audio stream converter
(`services/audio_converter.py`, `AudioStreamConverter`).

Only the streaming-format path (`is_streaming_format = True`) is
modelled, as claimed: each received chunk is decoded/resampled (the
pydub decode + resample step is an oracle `decode`; a decode failure is
caught and yields no frames, leaving the carry buffer untouched), the
resulting PCM bytes are appended to the carry buffer, and
`_extract_frames` (lines 171-188) slices off every full
`target_frame_bytes` run. -/

/-- `int(target_sample_rate * (target_frame_duration_ms / 1000.0) * 2)`
from `AudioStreamConverter.__init__` (lines 40-44); the float product
is exact for the default arguments, so integer arithmetic agrees. -/
def target_frame_bytes (target_sample_rate target_frame_duration_ms : Nat) : Nat :=
  target_sample_rate * target_frame_duration_ms * 2 / 1000

/-- The frame size used by the live pipeline: 16 kHz, 30 ms, 16-bit. -/
def targetFrameBytes : Nat := target_frame_bytes 16000 30

theorem targetFrameBytes_eq : targetFrameBytes = 960 := rfl

structure ConverterState where
  buffer : List Nat
  total_received_bytes : Nat
  total_output_frames : Nat
deriving Repr

/-- Fresh converter (`__init__`): empty carry buffer, zero counters. -/
def converterInit : ConverterState := ⟨[], 0, 0⟩

/-- Embedding of `AudioStreamConverter._extract_frames`: while the
buffer holds at least `targetFrameBytes` bytes, emit one frame of
exactly that size and drop it from the buffer. -/
def extract_frames (buf : List Nat) : List (List Nat) × List Nat :=
  if h : targetFrameBytes ≤ buf.length then
    let rest := extract_frames (buf.drop targetFrameBytes)
    (buf.take targetFrameBytes :: rest.1, rest.2)
  else ([], buf)
termination_by buf.length
decreasing_by
  have h960 : targetFrameBytes = 960 := rfl
  simp only [List.length_drop]
  omega

/-- Embedding of `AudioStreamConverter.convert_and_buffer` on the
streaming path. `decode` stands for `_decode_audio_chunk` composed with
the resample steps; `none` is a decode failure (swallowed: zero frames,
buffer unchanged). -/
def convert_and_buffer (decode : List Nat → Option (List Nat))
    (st : ConverterState) (chunk : List Nat) : List (List Nat) × ConverterState :=
  if chunk.isEmpty then ([], st)
  else
    let st1 := { st with total_received_bytes := st.total_received_bytes + chunk.length }
    match decode chunk with
    | none => ([], st1)
    | some pcm =>
      let fr := extract_frames (st1.buffer ++ pcm)
      (fr.1, { st1 with
                 buffer := fr.2,
                 total_output_frames := st1.total_output_frames + fr.1.length })

/-- Feeding a whole sequence of chunks, collecting every returned frame. -/
def feed_chunks (decode : List Nat → Option (List Nat)) :
    List (List Nat) → ConverterState → List (List Nat) × ConverterState
  | [], st => ([], st)
  | c :: rest, st =>
    let r := convert_and_buffer decode st c
    let r2 := feed_chunks decode rest r.2
    (r.1 ++ r2.1, r2.2)

/-- Total number of decoded/resampled PCM bytes produced over a chunk
sequence (failed or empty chunks contribute nothing). -/
def decoded_bytes (decode : List Nat → Option (List Nat)) : List (List Nat) → Nat
  | [] => 0
  | c :: rest =>
    (if c.isEmpty then 0 else
      match decode c with
      | none => 0
      | some pcm => pcm.length) + decoded_bytes decode rest

theorem extract_frames_spec (buf : List Nat) :
    (∀ f ∈ (extract_frames buf).1, f.length = targetFrameBytes) ∧
    (extract_frames buf).1.length = buf.length / targetFrameBytes ∧
    (extract_frames buf).2.length = buf.length % targetFrameBytes := by
  induction buf using extract_frames.induct with
  | case1 buf h ih =>
    rw [extract_frames]
    simp only [dif_pos h]
    obtain ⟨ih1, ih2, ih3⟩ := ih
    have h960 : targetFrameBytes = 960 := rfl
    refine ⟨?_, ?_, ?_⟩
    · intro f hf
      rcases List.mem_cons.mp hf with hf | hf
      · subst hf
        simp only [List.length_take]
        omega
      · exact ih1 f hf
    · simp only [List.length_cons, ih2, List.length_drop]
      rw [Nat.div_eq_sub_div (by omega) h]
    · simp only [ih3, List.length_drop]
      rw [eq_comm, Nat.mod_eq_sub_mod h]
  | case2 buf h =>
    rw [extract_frames]
    simp only [dif_neg h]
    have h960 : targetFrameBytes = 960 := rfl
    have hlt : buf.length < targetFrameBytes := by omega
    refine ⟨by simp, ?_, ?_⟩
    · simp only [List.length_nil]
      rw [eq_comm, Nat.div_eq_of_lt hlt]
    · rw [eq_comm, Nat.mod_eq_of_lt hlt]

theorem feed_chunks_spec (decode : List Nat → Option (List Nat)) :
    ∀ (chunks : List (List Nat)) (st : ConverterState),
      st.buffer.length < targetFrameBytes →
      (∀ f ∈ (feed_chunks decode chunks st).1, f.length = targetFrameBytes) ∧
      (feed_chunks decode chunks st).1.length
          = (st.buffer.length + decoded_bytes decode chunks) / targetFrameBytes ∧
      (feed_chunks decode chunks st).2.buffer.length
          = (st.buffer.length + decoded_bytes decode chunks) % targetFrameBytes := by
  intro chunks
  induction chunks with
  | nil =>
    intro st hst
    refine ⟨by simp [feed_chunks], ?_, ?_⟩
    · simp only [feed_chunks, List.length_nil, decoded_bytes, Nat.add_zero]
      rw [eq_comm, Nat.div_eq_of_lt hst]
    · simp only [feed_chunks, decoded_bytes, Nat.add_zero]
      rw [eq_comm, Nat.mod_eq_of_lt hst]
  | cons c rest ih =>
    intro st hst
    by_cases hc : c.isEmpty
    · have hstep : convert_and_buffer decode st c = ([], st) := by
        unfold convert_and_buffer; rw [if_pos hc]
      obtain ⟨ih1, ih2, ih3⟩ := ih st hst
      refine ⟨?_, ?_, ?_⟩
      · intro f hf
        simp only [feed_chunks, hstep, List.nil_append] at hf
        exact ih1 f hf
      · simp only [feed_chunks, hstep, List.nil_append, decoded_bytes,
          if_pos hc, Nat.zero_add]
        exact ih2
      · simp only [feed_chunks, hstep, decoded_bytes, if_pos hc, Nat.zero_add]
        exact ih3
    · cases hdec : decode c with
      | none =>
        have hstep : convert_and_buffer decode st c =
            ([], { st with total_received_bytes := st.total_received_bytes + c.length }) := by
          unfold convert_and_buffer; rw [if_neg hc, hdec]
        obtain ⟨ih1, ih2, ih3⟩ :=
          ih { st with total_received_bytes := st.total_received_bytes + c.length } hst
        refine ⟨?_, ?_, ?_⟩
        · intro f hf
          simp only [feed_chunks, hstep, List.nil_append] at hf
          exact ih1 f hf
        · simp only [feed_chunks, hstep, List.nil_append, decoded_bytes,
            if_neg hc, hdec, Nat.zero_add]
          exact ih2
        · simp only [feed_chunks, hstep, decoded_bytes, if_neg hc, hdec, Nat.zero_add]
          exact ih3
      | some pcm =>
        obtain ⟨hx1, hx2, hx3⟩ := extract_frames_spec (st.buffer ++ pcm)
        set fr := extract_frames (st.buffer ++ pcm) with hfr
        have hstep : convert_and_buffer decode st c =
            (fr.1, { st with
                       total_received_bytes := st.total_received_bytes + c.length,
                       buffer := fr.2,
                       total_output_frames := st.total_output_frames + fr.1.length }) := by
          unfold convert_and_buffer; rw [if_neg hc, hdec]
        have h960 : targetFrameBytes = 960 := rfl
        have hcarry : fr.2.length < targetFrameBytes := by
          rw [hx3, h960]
          exact Nat.mod_lt _ (by omega)
        obtain ⟨ih1, ih2, ih3⟩ :=
          ih { st with
                 total_received_bytes := st.total_received_bytes + c.length,
                 buffer := fr.2,
                 total_output_frames := st.total_output_frames + fr.1.length } hcarry
        have hlenapp : (st.buffer ++ pcm).length = st.buffer.length + pcm.length := by
          simp
        rw [hlenapp] at hx2 hx3
        refine ⟨?_, ?_, ?_⟩
        · intro f hf
          simp only [feed_chunks, hstep, List.mem_append] at hf
          rcases hf with hf | hf
          · exact hx1 f hf
          · exact ih1 f hf
        · simp only [feed_chunks, hstep, List.length_append, decoded_bytes,
            if_neg hc, hdec]
          rw [ih2, hx2, hx3]
          rw [h960]
          omega
        · simp only [feed_chunks, hstep, decoded_bytes, if_neg hc, hdec]
          rw [ih3, hx3]
          rw [h960]
          omega

/-- C7: on a streaming format, every frame returned by
`convert_and_buffer` has length exactly `target_frame_bytes = 960`, the
cumulative number of returned frames is the floor of the cumulative
decoded/resampled PCM byte count divided by 960, and the remainder of
that division is exactly what stays in the carry buffer. -/
theorem convert_and_buffer_framing (decode : List Nat → Option (List Nat))
    (chunks : List (List Nat)) :
    target_frame_bytes 16000 30 = 960 ∧
    (∀ f ∈ (feed_chunks decode chunks converterInit).1, f.length = 960) ∧
    (feed_chunks decode chunks converterInit).1.length
        = decoded_bytes decode chunks / 960 ∧
    (feed_chunks decode chunks converterInit).2.buffer.length
        = decoded_bytes decode chunks % 960 := by
  obtain ⟨h1, h2, h3⟩ :=
    feed_chunks_spec decode chunks converterInit (by decide)
  have h960 : targetFrameBytes = 960 := rfl
  refine ⟨rfl, ?_, ?_, ?_⟩
  · intro f hf
    rw [← h960]
    exact h1 f hf
  · rw [h2]
    simp [converterInit, h960]
  · rw [h3]
    simp [converterInit, h960]

/-! ## Hallucination filter
(`services/stt/whisper_service.py`, `_is_hallucination`, lines 328-345;
used by `transcribe_segment_from_bytes`, lines 289-296, to replace a
detected hallucination with the empty string).

Text is `List Char`. `str.count` counts non-overlapping occurrences
scanning left to right; the fuel argument (bounded by the scanned
length) only makes the recursion structural. The float comparison
`unique_ratio < 0.2` with `unique_ratio = unique / len` is modelled by
the integer condition `5 * unique < len`, which agrees with the IEEE
double comparison for every text shorter than about 10^15 characters. -/

def countOccAux (p : List Char) : Nat → List Char → Nat
  | 0, _ => 0
  | _, [] => 0
  | fuel + 1, c :: rest =>
    if p.isPrefixOf (c :: rest) then
      1 + countOccAux p fuel (rest.drop (p.length - 1))
    else
      countOccAux p fuel rest

/-- Python `text.count(p)`: non-overlapping occurrences of `p` in `text`. -/
def count_occurrences (p text : List Char) : Nat :=
  countOccAux p text.length text

/-- The `ban_list` literal of `_is_hallucination`. -/
def ban_list : List (List Char) :=
  ["아...".data, "아 아".data, "오오".data, "코코".data, "MBC".data, "구독".data,
   "좋아요".data]

/-- Embedding of `_is_hallucination`: empty text is kept; a text
containing any ban phrase at least twice is rejected; a text longer
than 10 characters whose unique-character count (spaces removed) is
below 20% of its length is rejected. -/
def is_hallucination (text : List Char) : Bool :=
  if text.isEmpty then false
  else if ban_list.any fun ban => decide (2 ≤ count_occurrences ban text) then true
  else if decide (10 < text.length) &&
      decide (5 * ((text.filter fun c => !(c = ' ')).dedup.length) < text.length) then
    true
  else false

theorem countOccAux_mul_le (p : List Char) (hp : p ≠ []) :
    ∀ (fuel : Nat) (s : List Char), countOccAux p fuel s * p.length ≤ s.length := by
  intro fuel
  induction fuel with
  | zero => intro s; simp [countOccAux]
  | succ n ih =>
    intro s
    cases s with
    | nil => simp [countOccAux]
    | cons c rest =>
      unfold countOccAux
      by_cases h : p.isPrefixOf (c :: rest)
      · rw [if_pos h]
        have hpre : p <+: c :: rest := by
          exact List.isPrefixOf_iff_prefix.mp h
        have hple : p.length ≤ (c :: rest).length := hpre.length_le
        have hrec := ih (rest.drop (p.length - 1))
        have hdrop : (rest.drop (p.length - 1)).length = rest.length - (p.length - 1) := by
          simp
        have hplen : 1 ≤ p.length := by
          cases p with
          | nil => exact absurd rfl hp
          | cons a t => simp
        simp only [List.length_cons] at hple ⊢
        rw [hdrop] at hrec
        have : (1 + countOccAux p n (rest.drop (p.length - 1))) * p.length
            = p.length + countOccAux p n (rest.drop (p.length - 1)) * p.length := by ring
        omega
      · rw [if_neg h]
        have hrec := ih rest
        simp only [List.length_cons]
        omega

theorem count_occurrences_mul_le (p text : List Char) (hp : p ≠ []) :
    count_occurrences p text * p.length ≤ text.length :=
  countOccAux_mul_le p hp text.length text

theorem dedup_replicate (c : Char) : ∀ (n : Nat), (List.replicate (n + 1) c).dedup = [c] := by
  intro n
  induction n with
  | zero => rfl
  | succ m ih =>
    have hmem : c ∈ List.replicate (m + 1) c := by
      rw [List.mem_replicate]; exact ⟨by omega, rfl⟩
    calc (List.replicate (m + 1 + 1) c).dedup
        = (c :: List.replicate (m + 1) c).dedup := by rw [List.replicate_succ]
      _ = (List.replicate (m + 1) c).dedup := List.dedup_cons_of_mem hmem
      _ = [c] := ih

theorem filter_replicate_keep (c : Char) (p : Char → Bool) (hc : p c = true) :
    ∀ (n : Nat), (List.replicate n c).filter p = List.replicate n c := by
  intro n
  induction n with
  | zero => rfl
  | succ m ih =>
    rw [List.replicate_succ, List.filter_cons, if_pos hc, ih, ← List.replicate_succ]

/-- Counterexample for C8: the claim asserts suppression for every
repetition length n greater or equal to 10, but the diversity check of
`_is_hallucination` fires only for `len(text) > 10`, so the 10-fold
repetition of the character is not suppressed. -/
theorem is_hallucination_ten_repeat_false :
    is_hallucination (List.replicate 10 'ㅋ') = false := by decide

/-- C8 (amended): `_is_hallucination` returns true for a single
character repeated n times whenever n is at least 11 (length strictly
greater than 10), and false for every 3-character text. -/
theorem is_hallucination_amended :
    (∀ n : Nat, 11 ≤ n → is_hallucination (List.replicate n 'ㅋ') = true) ∧
    (∀ text : List Char, text.length = 3 → is_hallucination text = false) := by
  constructor
  · intro n hn
    unfold is_hallucination
    have hne : (List.replicate n 'ㅋ').isEmpty = false := by
      rw [List.isEmpty_eq_false_iff_exists_mem]
      exact ⟨'ㅋ', by rw [List.mem_replicate]; exact ⟨by omega, rfl⟩⟩
    rw [hne]
    simp only [Bool.false_eq_true, if_false]
    by_cases hb : ban_list.any fun ban =>
        decide (2 ≤ count_occurrences ban (List.replicate n 'ㅋ'))
    · rw [if_pos hb]
    · rw [if_neg hb]
      have hfil : ((List.replicate n 'ㅋ').filter fun c => !(c = ' '))
          = List.replicate n 'ㅋ' :=
        filter_replicate_keep 'ㅋ' _ (by decide) n
      have hdedup : (List.replicate n 'ㅋ').dedup = ['ㅋ'] := by
        obtain ⟨m, rfl⟩ : ∃ m, n = m + 1 := ⟨n - 1, by omega⟩
        exact dedup_replicate 'ㅋ' m
      rw [if_pos]
      rw [hfil, hdedup]
      simp only [List.length_cons, List.length_nil, List.length_replicate,
        Bool.and_eq_true, decide_eq_true_eq]
      omega
  · intro text hlen
    unfold is_hallucination
    have hne : text.isEmpty = false := by
      cases text with
      | nil => simp at hlen
      | cons a t => rfl
    rw [hne]
    simp only [Bool.false_eq_true, if_false]
    have hban : (ban_list.any fun ban =>
        decide (2 ≤ count_occurrences ban text)) = false := by
      rw [List.any_eq_false]
      intro ban hban
      simp only [decide_eq_true_eq]
      intro hcount
      have hall2 : ∀ b ∈ ban_list, 2 ≤ b.length := by decide
      have hblen : 2 ≤ ban.length := hall2 ban hban
      have hbne : ban ≠ [] := by
        intro h; rw [h] at hblen; simp at hblen
      have hbound := count_occurrences_mul_le ban text hbne
      have : 2 * 2 ≤ count_occurrences ban text * ban.length :=
        Nat.mul_le_mul hcount hblen
      omega
    rw [hban]
    simp only [Bool.false_eq_true, if_false]
    simp [hlen]

theorem is_hallucination_amended_witness :
    is_hallucination (List.replicate 11 'ㅋ') = true ∧
    is_hallucination ['a', 'b', 'c'] = false :=
  ⟨is_hallucination_amended.1 11 (by omega),
   is_hallucination_amended.2 ['a', 'b', 'c'] (by decide)⟩

/-! ## VADProcessor construction and the stream-create dispatcher
(`services/stt/vad_processor.py` `VADProcessor.__init__`,
`domain/streaming_job.py` `StreamingJob.__init__`, lines 21-33, and
`api/stream_endpoints.py` `create_stream_job`, lines 56-242).

The active `VADProcessor.__init__` (vad_processor.py line 149) is
`def __init__(self):` and accepts no keyword arguments at all; the
earlier signature with `sample_rate=...` etc. is commented out.
`StreamingJob.__init__` under the default engine calls it with five
keyword arguments, which Python rejects with a `TypeError` before the
body runs. The body is modelled only up to its first attribute read,
`constants.VAD_THRESHOLD`: `core/config.py` class `Constants` defines
no such attribute, so even a zero-argument call raises
`AttributeError`. -/

inductive PyError where
  | typeError (unexpected_kwarg : String)
  | attributeError (missing_name : String)
deriving DecidableEq, Repr

/-- Names defined on `Constants` in `core/config.py` (lines 125-143). -/
def constants_attribute_names : List String :=
  ["VAD_SAMPLE_RATE", "VAD_FRAME_DURATION_MS", "VAD_AGGRESSIVENESS",
   "VAD_MIN_SPEECH_FRAMES", "VAD_MAX_SILENCE_FRAMES",
   "ALLOWED_AUDIO_EXTENSIONS", "CELERY_TIMEZONE",
   "CELERY_WORKER_CONCURRENCY", "STREAM_MAX_WORKERS"]

/-- Keyword parameters accepted by the active `VADProcessor.__init__`
(`def __init__(self):`, vad_processor.py line 149). -/
def vad_processor_init_params : List String := []

/-- Calling `VADProcessor(**kwargs)`: Python raises `TypeError` on the
first keyword argument not named by a parameter; otherwise the body
immediately reads `constants.VAD_THRESHOLD`, which does not exist. -/
def call_vad_processor_init (kwargs : List String) : Except PyError Unit :=
  match kwargs.find? fun k => !vad_processor_init_params.contains k with
  | some k => .error (.typeError k)
  | none =>
    if constants_attribute_names.contains "VAD_THRESHOLD" then .ok ()
    else .error (.attributeError "VAD_THRESHOLD")

/-- Default of `Settings.STT_ENGINE` (`core/config.py` line 79). -/
def STT_ENGINE_default : String := "faster-whisper"

/-- Embedding of `StreamingJob.__init__`: under the `faster-whisper`
engine it constructs a `VADProcessor` with exactly these five keyword
arguments (streaming_job.py lines 27-33); under `whisperlivekit` it
only allocates a buffer (modelled as success). -/
def streaming_job_init (stt_engine : String) : Except PyError Unit :=
  if stt_engine = "faster-whisper" then
    call_vad_processor_init
      ["sample_rate", "frame_duration_ms", "vad_aggressiveness",
       "min_speech_frames", "max_silence_frames"]
  else
    .ok ()

/-- Embedding of `DatabaseService.check_member_exists`
(database_service.py lines 446-498): among the jobs of the member in
the room, the single most recent by `reg_dttm` (ORDER BY reg_dttm DESC
LIMIT 1; the embedding keeps the earlier row on equal timestamps). -/
def check_member_exists (db : List STTJobRow) (rid mid : String) : Option STTJobRow :=
  let matching := db.filter fun j =>
    decide (j.room_id = some rid ∧ j.member_id = some mid)
  matching.foldl (fun acc j =>
    match acc with
    | none => some j
    | some a => if a.reg_dttm < j.reg_dttm then some j else some a) none

structure StreamCreateRequest where
  audio_format : String
  sample_rate : Option Nat
  channels : Option Nat
  room_id : Option String
  member_id : Option String
  cure_seq : Option Nat
  cust_seq : Option Nat
  patient_seq : Option Nat
  mode : Option String
deriving DecidableEq, Repr

inductive CreateStreamResponse where
  | created (job_id : String) (job_type : String) (status : String)
  | conflict (error : String) (member_id : String)
      (existing_job_id : String) (existing_status : String)
  | serverError (py_error : PyError)
deriving DecidableEq, Repr

def CreateStreamResponse.isCreated : CreateStreamResponse → Bool
  | .created _ _ _ => true
  | _ => false

def CreateStreamResponse.isConflict : CreateStreamResponse → Bool
  | .conflict _ _ _ _ => true
  | _ => false

/-- The duplicate-member check of `create_stream_job` (stream_endpoints.py
lines 75-145): in conference mode (`bool(room_id and member_id)`, Python
string truthiness) the handler looks up the single most recent job of
the member in the room and answers 409 when its status (stored
upper-case, so `.upper()` is the identity here) is PENDING or
PROCESSING; any other outcome lets the request proceed. -/
def duplicate_check (db : List STTJobRow) (req : StreamCreateRequest) :
    Option CreateStreamResponse :=
  if strTruthy req.room_id && strTruthy req.member_id then
    match req.room_id, req.member_id with
    | some rid, some mid =>
      match check_member_exists db rid mid with
      | some existing =>
        if existing.status = "PENDING" ∨ existing.status = "PROCESSING" then
          some (.conflict "DUPLICATE_MEMBER" mid existing.job_id existing.status)
        else none
      | none => none
    | _, _ => none
  else none

/-- Embedding of `create_stream_job` (`POST /api/v1/stream/create`).
Room creation (`get_or_create_room`) is modelled as succeeding. When
the duplicate check does not fire, the handler executes
`job = StreamingJob(metadata=metadata)` outside any try/except; an
exception there escapes the handler as HTTP 500. On success the
handler returns HTTP 201 with `job_id`, `job_type "REALTIME"` and
`status "pending"`. -/
def create_stream_job (db : List STTJobRow) (req : StreamCreateRequest)
    (new_job_id : String) (stt_engine : String) : CreateStreamResponse :=
  match duplicate_check db req with
  | some resp => resp
  | none =>
    match streaming_job_init stt_engine with
    | .error e => .serverError e
    | .ok _ => .created new_job_id "REALTIME" "pending"

theorem duplicate_check_conflict (db : List STTJobRow) (req : StreamCreateRequest)
    (resp : CreateStreamResponse) (h : duplicate_check db req = some resp) :
    resp.isConflict = true := by
  unfold duplicate_check at h
  split at h
  · split at h
    · split at h
      · split at h
        · cases h; rfl
        · simp at h
      · simp at h
    · simp at h
  · simp at h

/-- C1: under the default STT engine, `StreamingJob.__init__` calls the
active zero-parameter `VADProcessor.__init__` with five keyword
arguments, so Python raises `TypeError` and every
`POST /api/v1/stream/create` request that passes the duplicate check
answers HTTP 500 instead of the specified 201; concretely, a plain
opus request against an empty database yields the server error. -/
theorem create_stream_job_vad_construction_fails :
    streaming_job_init STT_ENGINE_default
        = Except.error (PyError.typeError "sample_rate") ∧
    (∀ (db : List STTJobRow) (req : StreamCreateRequest) (njid : String),
      (create_stream_job db req njid STT_ENGINE_default).isCreated = false) ∧
    create_stream_job []
        { audio_format := "opus", sample_rate := none, channels := none,
          room_id := none, member_id := none, cure_seq := none,
          cust_seq := none, patient_seq := none, mode := none }
        "job-1" STT_ENGINE_default
      = CreateStreamResponse.serverError (PyError.typeError "sample_rate") := by
  refine ⟨rfl, ?_, rfl⟩
  intro db req njid
  unfold create_stream_job
  cases hdup : duplicate_check db req with
  | none => rfl
  | some resp =>
    have hconf := duplicate_check_conflict db req resp hdup
    cases resp with
    | created a b c => simp [CreateStreamResponse.isConflict] at hconf
    | conflict a b c d => rfl
    | serverError e => simp [CreateStreamResponse.isConflict] at hconf

/-- Counterexample for C5: the claim quantifies over ANY prior
PENDING/PROCESSING job of the member, but the handler consults only the
single most recent job. With an older PENDING job and a newer COMPLETED
job of the same member in the same room, the second create request is
not answered with 409 (under the default engine it is in fact a 500,
by C1). -/
theorem duplicate_check_ignores_older_pending :
    ({ job_id := "job-old", job_type := "REALTIME", status := "PENDING",
       original_transcript := none, structured_summary := none,
       error_message := none, room_id := some "R", member_id := some "M",
       reg_dttm := 1, upd_dttm := 1, upd_id := "system" } : STTJobRow).status
        = "PENDING" ∧
    check_member_exists
        [{ job_id := "job-old", job_type := "REALTIME", status := "PENDING",
           original_transcript := none, structured_summary := none,
           error_message := none, room_id := some "R", member_id := some "M",
           reg_dttm := 1, upd_dttm := 1, upd_id := "system" },
         { job_id := "job-new", job_type := "REALTIME", status := "COMPLETED",
           original_transcript := none, structured_summary := none,
           error_message := none, room_id := some "R", member_id := some "M",
           reg_dttm := 2, upd_dttm := 2, upd_id := "system" }] "R" "M"
      = some { job_id := "job-new", job_type := "REALTIME", status := "COMPLETED",
               original_transcript := none, structured_summary := none,
               error_message := none, room_id := some "R", member_id := some "M",
               reg_dttm := 2, upd_dttm := 2, upd_id := "system" } ∧
    (create_stream_job
        [{ job_id := "job-old", job_type := "REALTIME", status := "PENDING",
           original_transcript := none, structured_summary := none,
           error_message := none, room_id := some "R", member_id := some "M",
           reg_dttm := 1, upd_dttm := 1, upd_id := "system" },
         { job_id := "job-new", job_type := "REALTIME", status := "COMPLETED",
           original_transcript := none, structured_summary := none,
           error_message := none, room_id := some "R", member_id := some "M",
           reg_dttm := 2, upd_dttm := 2, upd_id := "system" }]
        { audio_format := "opus", sample_rate := none, channels := none,
          room_id := some "R", member_id := some "M", cure_seq := none,
          cust_seq := none, patient_seq := none, mode := none }
        "job-3" STT_ENGINE_default).isConflict = false := by
  refine ⟨rfl, by decide, by decide⟩

/-- C5 (amended): when both identifiers are supplied, the handler
consults only the single most recent job of that member in that room
(`check_member_exists`); when that job is PENDING or PROCESSING the
request is rejected with HTTP 409 Conflict carrying that job's
identifier. -/
theorem create_stream_job_duplicate_409 (db : List STTJobRow)
    (req : StreamCreateRequest) (rid mid njid engine : String) (j : STTJobRow)
    (hrid : req.room_id = some rid) (hmid : req.member_id = some mid)
    (hrne : rid ≠ "") (hmne : mid ≠ "")
    (hchk : check_member_exists db rid mid = some j)
    (hst : j.status = "PENDING" ∨ j.status = "PROCESSING") :
    create_stream_job db req njid engine
      = CreateStreamResponse.conflict "DUPLICATE_MEMBER" mid j.job_id j.status := by
  unfold create_stream_job duplicate_check
  rw [hrid, hmid]
  have h1 : strTruthy (some rid) = true := by
    simp only [strTruthy, Bool.not_eq_true']
    exact Bool.eq_false_iff.mpr fun h => hrne ((String.isEmpty_iff rid).mp h)
  have h2 : strTruthy (some mid) = true := by
    simp only [strTruthy, Bool.not_eq_true']
    exact Bool.eq_false_iff.mpr fun h => hmne ((String.isEmpty_iff mid).mp h)
  rw [h1, h2]
  simp only [Bool.and_self, if_true, hchk, if_pos hst]

theorem create_stream_job_duplicate_409_witness :
    create_stream_job
        [{ job_id := "job-p", job_type := "REALTIME", status := "PENDING",
           original_transcript := none, structured_summary := none,
           error_message := none, room_id := some "R", member_id := some "M",
           reg_dttm := 1, upd_dttm := 1, upd_id := "system" }]
        { audio_format := "opus", sample_rate := none, channels := none,
          room_id := some "R", member_id := some "M", cure_seq := none,
          cust_seq := none, patient_seq := none, mode := none }
        "job-2" STT_ENGINE_default
      = CreateStreamResponse.conflict "DUPLICATE_MEMBER" "M" "job-p" "PENDING" :=
  create_stream_job_duplicate_409 _ _ "R" "M" "job-2" STT_ENGINE_default
    { job_id := "job-p", job_type := "REALTIME", status := "PENDING",
      original_transcript := none, structured_summary := none,
      error_message := none, room_id := some "R", member_id := some "M",
      reg_dttm := 1, upd_dttm := 1, upd_id := "system" }
    rfl rfl (by decide) (by decide) (by decide) (Or.inl rfl)

/-! ## Batch pipeline
(`services/pipeline/batch_pipeline.py`, `run_batch_pipeline`).

The recognizer (`whisper_service.transcribe_audio_streaming`; the
handler always uses it, the google-mode service objects are selected
but never invoked for STT) either raises or yields a list of segment
texts; the summarizer (`llm_service.get_summary`) either raises or
returns a summary dict. Database writes go through the shared
`update_stt_job_status` embedding; `log_error` appends
`(service_name, message)` pairs; `publish_event` appends events.
Logged stack traces are abstracted to the formatted message. -/

inductive BatchEvent where
  | transcript_segment (text : String) (segment_number : Nat) (status : String)
  | final_summary (summary : SummaryDict) (segment_count : Nat) (status : String)
deriving DecidableEq, Repr

structure BatchState where
  job : STTJobRow
  segments : List String
  error_logs : List (String × String)
  events : List BatchEvent
  llm_calls : Nat
deriving DecidableEq, Repr

inductive BatchReturn where
  | failed (error : String)
  | completed_empty (error : String)
  | transcribed_error (transcript error : String)
  | completed (transcript : String) (summary : SummaryDict) (segment_count : Nat)
deriving DecidableEq, Repr

theorem strTruthy_none : strTruthy none = false := rfl

theorem dictTruthy_none : dictTruthy none = false := rfl

/-- Python `" ".join(xs)`. -/
def joinSpace (xs : List String) : String := String.intercalate " " xs

/-- The look-ahead loop of `run_batch_pipeline` (lines 55-112): every
segment is saved, and the published `transcript_segment` events carry
status PROCESSING except the last, which carries TRANSCRIBED. -/
def publish_batch_segments : Nat → List String → List BatchEvent
  | _, [] => []
  | n, s :: rest =>
    match rest with
    | [] => [.transcript_segment s n "TRANSCRIBED"]
    | _ => .transcript_segment s n "PROCESSING" :: publish_batch_segments (n + 1) rest

def hasFinalSummary (evs : List BatchEvent) : Bool :=
  evs.any fun ev =>
    match ev with
    | .final_summary _ _ _ => true
    | _ => false

/-- Embedding of `run_batch_pipeline` (lines 14-208). The temp-file
cleanup in the `finally` block touches no modelled state. -/
def run_batch_pipeline (st0 : BatchState) (stt : Except String (List String))
    (llm : Except String SummaryDict) (now : Nat) : BatchState × BatchReturn :=
  let st1 := { st0 with
    job := update_stt_job_status st0.job "PROCESSING" none none none now }
  match stt with
  | .error e =>
    let st2 := { st1 with
      error_logs := st1.error_logs ++ [("batch_stt", "STT 오류: " ++ e)] }
    let msg := "파이프라인 실패: " ++ e
    let st3 := { st2 with
      error_logs := st2.error_logs ++ [("batch_pipeline", msg)],
      job := update_stt_job_status st2.job "COMPLETED" none none (some msg) now }
    (st3, .failed msg)
  | .ok segs =>
    let st2 := { st1 with
      segments := st1.segments ++ segs,
      events := st1.events ++ publish_batch_segments 1 segs }
    let full := joinSpace segs
    if full = "" then
      let st3 := { st2 with
        job := update_stt_job_status st2.job "COMPLETED" (some "") none
          (some "STT 결과 없음") now }
      (st3, .completed_empty "STT 결과 없음")
    else
      let st3 := { st2 with
        job := update_stt_job_status st2.job "TRANSCRIBED" (some full) none none now }
      let st4 := { st3 with llm_calls := st3.llm_calls + 1 }
      match llm with
      | .error e =>
        let st5 := { st4 with
          error_logs := st4.error_logs ++ [("batch_summary", "요약 오류: " ++ e)] }
        (st5, .transcribed_error full ("요약 오류: " ++ e))
      | .ok summary =>
        let st5 := { st4 with
          events := st4.events ++ [BatchEvent.final_summary summary segs.length "COMPLETED"] }
        let st6 := { st5 with
          job := update_stt_job_status st5.job "COMPLETED" none (some summary) none now }
        (st6, .completed full summary segs.length)

theorem hasFinalSummary_append (a b : List BatchEvent) :
    hasFinalSummary (a ++ b) = (hasFinalSummary a || hasFinalSummary b) := by
  unfold hasFinalSummary
  rw [List.any_append]

theorem publish_batch_segments_no_final :
    ∀ (segs : List String) (n : Nat),
      hasFinalSummary (publish_batch_segments n segs) = false := by
  intro segs
  induction segs with
  | nil => intro n; rfl
  | cons s rest ih =>
    intro n
    cases rest with
    | nil => rfl
    | cons t more =>
      have hrest := ih (n + 1)
      unfold publish_batch_segments
      unfold hasFinalSummary at hrest ⊢
      simp only [List.any_cons, hrest, Bool.or_false]

/-- C2: when the recognizer raises, `run_batch_pipeline` does append
ErrorLog rows (`batch_stt` and `batch_pipeline`), but the terminal
status it writes is COMPLETED (with the failure text in
`error_message`), not FAILED — even though its return value says
`"status": "failed"`. -/
theorem run_batch_pipeline_stt_failure (st0 : BatchState) (e : String)
    (llm : Except String SummaryDict) (now : Nat) :
    (run_batch_pipeline st0 (Except.error e) llm now).1.job.status = "COMPLETED" ∧
    (run_batch_pipeline st0 (Except.error e) llm now).1.error_logs
        = st0.error_logs ++ [("batch_stt", "STT 오류: " ++ e),
            ("batch_pipeline", "파이프라인 실패: " ++ e)] ∧
    (run_batch_pipeline st0 (Except.error e) llm now).1.job.error_message
        = some ("파이프라인 실패: " ++ e) ∧
    (run_batch_pipeline st0 (Except.error e) llm now).2
        = BatchReturn.failed ("파이프라인 실패: " ++ e) ∧
    decide ((run_batch_pipeline st0 (Except.error e) llm now).1.job.status
        = "FAILED") = false := by
  have htr : strTruthy (some ("파이프라인 실패: " ++ e)) = true := by
    simp only [strTruthy, Bool.not_eq_true']
    refine Bool.eq_false_iff.mpr fun h => ?_
    have h2 := (String.isEmpty_iff _).mp h
    have hlen := congrArg String.length h2
    simp only [String.length_append] at hlen
    simp at hlen
    exact absurd hlen.1 (by decide)
  refine ⟨?_, ?_, ?_, ?_, ?_⟩ <;>
    simp [run_batch_pipeline, update_stt_job_status_base, strTruthy_none,
      dictTruthy_none, htr]

theorem strTruthy_some_empty : strTruthy (some "") = false := rfl

/-- Counterexample for C3: on an empty transcript `run_batch_pipeline`
writes status COMPLETED (return dict says "completed" too), not the
TRANSCRIBED the claim asserts. -/
theorem run_batch_pipeline_empty_not_transcribed :
    decide ((run_batch_pipeline
        { job := { job_id := "job-b", job_type := "BATCH", status := "PENDING",
                   original_transcript := none, structured_summary := none,
                   error_message := none, room_id := none, member_id := none,
                   reg_dttm := 0, upd_dttm := 0, upd_id := "system" },
          segments := [], error_logs := [], events := [], llm_calls := 0 }
        (Except.ok []) (Except.ok [("summary", "unused")]) 1).1.job.status
          = "TRANSCRIBED") = false ∧
    (run_batch_pipeline
        { job := { job_id := "job-b", job_type := "BATCH", status := "PENDING",
                   original_transcript := none, structured_summary := none,
                   error_message := none, room_id := none, member_id := none,
                   reg_dttm := 0, upd_dttm := 0, upd_id := "system" },
          segments := [], error_logs := [], events := [], llm_calls := 0 }
        (Except.ok []) (Except.ok [("summary", "unused")]) 1).1.job.status
      = "COMPLETED" := by
  exact ⟨by decide, by decide⟩

/-- C3 (amended): on an empty transcript `run_batch_pipeline` sets the
job status to COMPLETED with the informational error message
"STT 결과 없음" (leaving the stored transcript column unchanged, since
the empty string is falsy) and returns without consulting the
summarizer and without publishing a `final_summary` event. -/
theorem run_batch_pipeline_empty_transcript (st0 : BatchState)
    (segs : List String) (llm llm2 : Except String SummaryDict) (now : Nat)
    (h : joinSpace segs = "") :
    (run_batch_pipeline st0 (Except.ok segs) llm now).1.job.status = "COMPLETED" ∧
    (run_batch_pipeline st0 (Except.ok segs) llm now).1.job.error_message
        = some "STT 결과 없음" ∧
    (run_batch_pipeline st0 (Except.ok segs) llm now).1.job.original_transcript
        = st0.job.original_transcript ∧
    (run_batch_pipeline st0 (Except.ok segs) llm now).1.llm_calls = st0.llm_calls ∧
    run_batch_pipeline st0 (Except.ok segs) llm now
        = run_batch_pipeline st0 (Except.ok segs) llm2 now ∧
    hasFinalSummary (run_batch_pipeline st0 (Except.ok segs) llm now).1.events
        = hasFinalSummary st0.events ∧
    (run_batch_pipeline st0 (Except.ok segs) llm now).2
        = BatchReturn.completed_empty "STT 결과 없음" := by
  have he : strTruthy (some "STT 결과 없음") = true := by decide
  refine ⟨?_, ?_, ?_, ?_, ?_, ?_, ?_⟩ <;>
    simp [run_batch_pipeline, h, update_stt_job_status_base, strTruthy_none,
      dictTruthy_none, strTruthy_some_empty, he, hasFinalSummary_append,
      publish_batch_segments_no_final]

theorem run_batch_pipeline_empty_transcript_witness :
    (run_batch_pipeline
        { job := { job_id := "job-w", job_type := "BATCH", status := "PENDING",
                   original_transcript := none, structured_summary := none,
                   error_message := none, room_id := none, member_id := none,
                   reg_dttm := 0, upd_dttm := 0, upd_id := "system" },
          segments := [], error_logs := [], events := [], llm_calls := 0 }
        (Except.ok []) (Except.ok []) 2).1.job.status = "COMPLETED" ∧
    (run_batch_pipeline
        { job := { job_id := "job-w", job_type := "BATCH", status := "PENDING",
                   original_transcript := none, structured_summary := none,
                   error_message := none, room_id := none, member_id := none,
                   reg_dttm := 0, upd_dttm := 0, upd_id := "system" },
          segments := [], error_logs := [], events := [], llm_calls := 0 }
        (Except.ok []) (Except.ok []) 2).2
      = BatchReturn.completed_empty "STT 결과 없음" := by
  have hmain := run_batch_pipeline_empty_transcript
      { job := { job_id := "job-w", job_type := "BATCH", status := "PENDING",
                 original_transcript := none, structured_summary := none,
                 error_message := none, room_id := none, member_id := none,
                 reg_dttm := 0, upd_dttm := 0, upd_id := "system" },
        segments := [], error_logs := [], events := [], llm_calls := 0 }
      [] (Except.ok []) (Except.ok []) 2 (by decide)
  exact ⟨hmain.1, hmain.2.2.2.2.2.2⟩

/-! ## Stream pipeline finalize
(`services/pipeline/stream_pipeline.py`, `StreamPipeline.finalize`,
lines 226-424; live handling for comparison is
`process_audio_chunk`, lines 142-224).

Worker results are the dicts built by `_stt_worker`: either an error
dict with keys `error` and `segment_number`, or a success dict with
keys `segment_number`, `text`, `duration_ms`, `absolute_timestamp`
and `relative_time_sec`. Crucially, NO result dict ever has a key
named `tesx`, while the drain loop of `finalize` (line 285) executes
`text = result["tesx"]` for every non-error result with truthy
`text`; that lookup raises `KeyError`.

`queue` lists the results that arrive on the out-queue during the
drain wait, in order; when it runs short of `pending`, the remaining
waits time out until the 180 s deadline breaks the loop (the deadline
itself is real time, abstracted to "no further arrivals").
`job.flush_buffer()` returns `Optional[bytes]`; `finalize` unpacks it
as a pair, which Python accepts only for a 2-byte value (iterating the
bytes), so any other non-`None` length raises `ValueError`; for the
2-byte case the enqueued garbage segment only bumps the counters and
its eventual result, if any, is part of `queue`. -/

inductive StreamResult where
  | err (message : String) (segment_number : Int)
  | ok (segment_number : Nat) (text : String) (duration_ms : Nat)
      (absolute_timestamp : Nat) (relative_time_sec : Nat)
deriving DecidableEq, Repr

/-- Python `key in result` on a worker-result dict. -/
def StreamResult.hasKey : StreamResult → String → Bool
  | .err _ _, k => k = "error" || k = "segment_number"
  | .ok _ _ _ _ _, k =>
    k = "segment_number" || k = "text" || k = "duration_ms" ||
      k = "absolute_timestamp" || k = "relative_time_sec"

/-- Python `result.get("text")`. -/
def StreamResult.get_text : StreamResult → Option String
  | .err _ _ => none
  | .ok _ t _ _ _ => some t

inductive StreamEvent where
  | errorEv (message : String)
  | finalSummary (summary : SummaryDict) (total_segments : Nat)
deriving DecidableEq, Repr

structure StreamDB where
  job : STTJobRow
  segments : List (String × Option Nat)
  error_logs : List (String × String)
deriving DecidableEq, Repr

structure StreamJobMem where
  full_transcript : List String
  current_prompt_context : String
  segment_count : Nat
deriving DecidableEq, Repr

inductive StreamExc where
  | keyError (key : String)
  | valueError (message : String)
  | summaryError (message : String)
deriving DecidableEq, Repr

/-- `str(e)` of the escaped exception (Python renders
`KeyError("tesx")` with quotes around the key; the quoting is elided). -/
def StreamExc.pyStr : StreamExc → String
  | .keyError k => k
  | .valueError m => m
  | .summaryError m => m

/-- The drain-wait loop of `finalize` (lines 266-313): while
`pending_segments > 0` and before the deadline, take a result; for a
non-error result with truthy `text`, line 285 reads `result["tesx"]`
and raises `KeyError`; every other result only decrements the counter. -/
def drain_results : Nat → List StreamResult → Except StreamExc Unit
  | 0, _ => .ok ()
  | _ + 1, [] => .ok ()
  | p + 1, r :: rest =>
    if (!r.hasKey "error") && strTruthy r.get_text then
      .error (.keyError "tesx")
    else
      drain_results p rest

/-- Embedding of `StreamPipeline.finalize`. The body runs inside
`try`; an escaping exception reaches the outer handler (lines
412-424), which appends a `stream_finalize` ErrorLog to the state
reached so far and returns an error-shaped event without any further
status write. -/
def finalize (db : StreamDB) (mem : StreamJobMem)
    (flush_result : Option (List Nat)) (pending : Nat)
    (queue : List StreamResult) (llm : Except String SummaryDict)
    (now : Nat) : StreamEvent × StreamDB :=
  let flushStep : Except (StreamExc × StreamDB) (Nat × Nat) :=
    match flush_result with
    | none => .ok (mem.segment_count, pending)
    | some bs =>
      if bs.length = 2 then .ok (mem.segment_count + 1, pending + 1)
      else .error (StreamExc.valueError "cannot unpack bytes", db)
  let step : Except (StreamExc × StreamDB) (StreamEvent × StreamDB) :=
    match flushStep with
    | .error e => .error e
    | .ok counters =>
      match drain_results counters.2 queue with
      | .error exc => .error (exc, db)
      | .ok _ =>
        let final_transcript := joinSpace mem.full_transcript
        if final_transcript = "" then
          let db1 := { db with job := (update_stt_job_status db.job "TRANSCRIBED"
            (some "") none (some "대화 내용 없음") now) }
          .ok (StreamEvent.errorEv "대화 내용이 없습니다", db1)
        else
          let db1 := { db with job := (update_stt_job_status db.job "TRANSCRIBED"
            (some final_transcript) none none now) }
          match llm with
          | .error e => .error (StreamExc.summaryError e, db1)
          | .ok s =>
            let db2 := { db1 with job := (update_stt_job_status db1.job "COMPLETED"
              none (some s) none now) }
            .ok (StreamEvent.finalSummary s counters.1, db2)
  match step with
  | .ok r => r
  | .error (exc, dbAt) =>
    (StreamEvent.errorEv ("최종 처리 오류: " ++ exc.pyStr),
     { dbAt with error_logs := dbAt.error_logs ++
         [("stream_finalize", "최종 처리 오류: " ++ exc.pyStr)] })

/-- C4: a non-error result with non-empty text taken during the drain
wait is NOT handled as during live processing: line 285 reads
`result["tesx"]` (a key no result dict has), so `finalize` raises
`KeyError`, saves nothing, leaves the job status untouched (never
reaching the TRANSCRIBED update) and returns an error event.
Evaluated at one pending trailing segment whose recognized text is
non-empty. -/
theorem finalize_drain_keyerror :
    drain_results 1 [StreamResult.ok 1 "안녕하세요" 5 100 2]
        = Except.error (StreamExc.keyError "tesx") ∧
    (finalize
        { job := { job_id := "job-s", job_type := "REALTIME",
                   status := "PROCESSING", original_transcript := none,
                   structured_summary := none, error_message := none,
                   room_id := none, member_id := none, reg_dttm := 0,
                   upd_dttm := 0, upd_id := "system" },
          segments := [], error_logs := [] }
        { full_transcript := [], current_prompt_context := "",
          segment_count := 1 }
        none 1 [StreamResult.ok 1 "안녕하세요" 5 100 2]
        (Except.ok [("summary", "unused")]) 3)
      = (StreamEvent.errorEv "최종 처리 오류: tesx",
         { job := { job_id := "job-s", job_type := "REALTIME",
                    status := "PROCESSING", original_transcript := none,
                    structured_summary := none, error_message := none,
                    room_id := none, member_id := none, reg_dttm := 0,
                    upd_dttm := 0, upd_id := "system" },
           segments := [],
           error_logs := [("stream_finalize", "최종 처리 오류: tesx")] }) := by
  exact ⟨rfl, rfl⟩

theorem drain_results_zero (queue : List StreamResult) :
    drain_results 0 queue = Except.ok () := by
  cases queue <;> rfl

theorem strTruthy_some_of_ne (s : String) (h : s ≠ "") :
    strTruthy (some s) = true := by
  simp only [strTruthy, Bool.not_eq_true']
  exact Bool.eq_false_iff.mpr fun he => h ((String.isEmpty_iff s).mp he)

/-- C9: for both pipelines, a non-empty transcript followed by a
summarizer failure leaves the job at TRANSCRIBED with the transcript
stored and the summary column untouched (no COMPLETED write), records
the failure, and yields an error-shaped terminal result instead of
`final_summary`. The stream case is taken after a clean drain (no
in-flight segments at socket close, no trailing VAD flush). -/
theorem summarizer_failure_keeps_transcribed :
    (∀ (st0 : BatchState) (segs : List String) (e : String) (now : Nat),
      joinSpace segs ≠ "" →
      (run_batch_pipeline st0 (Except.ok segs) (Except.error e) now).1.job.status
          = "TRANSCRIBED" ∧
      (run_batch_pipeline st0 (Except.ok segs) (Except.error e) now).1.job.original_transcript
          = some (joinSpace segs) ∧
      (run_batch_pipeline st0 (Except.ok segs) (Except.error e) now).1.job.structured_summary
          = st0.job.structured_summary ∧
      hasFinalSummary
          (run_batch_pipeline st0 (Except.ok segs) (Except.error e) now).1.events
          = hasFinalSummary st0.events ∧
      (run_batch_pipeline st0 (Except.ok segs) (Except.error e) now).1.error_logs
          = st0.error_logs ++ [("batch_summary", "요약 오류: " ++ e)] ∧
      (run_batch_pipeline st0 (Except.ok segs) (Except.error e) now).2
          = BatchReturn.transcribed_error (joinSpace segs) ("요약 오류: " ++ e)) ∧
    (∀ (db : StreamDB) (mem : StreamJobMem) (queue : List StreamResult)
        (e : String) (now : Nat),
      joinSpace mem.full_transcript ≠ "" →
      (finalize db mem none 0 queue (Except.error e) now).2.job.status
          = "TRANSCRIBED" ∧
      (finalize db mem none 0 queue (Except.error e) now).2.job.original_transcript
          = some (joinSpace mem.full_transcript) ∧
      (finalize db mem none 0 queue (Except.error e) now).2.job.structured_summary
          = db.job.structured_summary ∧
      (finalize db mem none 0 queue (Except.error e) now).1
          = StreamEvent.errorEv ("최종 처리 오류: " ++ e) ∧
      (finalize db mem none 0 queue (Except.error e) now).2.error_logs
          = db.error_logs ++ [("stream_finalize", "최종 처리 오류: " ++ e)]) := by
  constructor
  · intro st0 segs e now h
    have htr := strTruthy_some_of_ne (joinSpace segs) h
    refine ⟨?_, ?_, ?_, ?_, ?_, ?_⟩ <;>
      simp [run_batch_pipeline, h, update_stt_job_status_base, strTruthy_none,
        dictTruthy_none, htr, hasFinalSummary_append,
        publish_batch_segments_no_final]
  · intro db mem queue e now h
    have htr := strTruthy_some_of_ne (joinSpace mem.full_transcript) h
    refine ⟨?_, ?_, ?_, ?_, ?_⟩ <;>
      simp [finalize, drain_results_zero, h, update_stt_job_status_base,
        strTruthy_none, dictTruthy_none, htr, StreamExc.pyStr]

theorem summarizer_failure_keeps_transcribed_witness :
    ((run_batch_pipeline
        { job := { job_id := "job-b9", job_type := "BATCH", status := "PENDING",
                   original_transcript := none, structured_summary := none,
                   error_message := none, room_id := none, member_id := none,
                   reg_dttm := 0, upd_dttm := 0, upd_id := "system" },
          segments := [], error_logs := [], events := [], llm_calls := 0 }
        (Except.ok ["안녕"]) (Except.error "LLM down") 3).1.job.status
      = "TRANSCRIBED") ∧
    ((finalize
        { job := { job_id := "job-s9", job_type := "REALTIME",
                   status := "PROCESSING", original_transcript := none,
                   structured_summary := none, error_message := none,
                   room_id := none, member_id := none, reg_dttm := 0,
                   upd_dttm := 0, upd_id := "system" },
          segments := [], error_logs := [] }
        { full_transcript := ["김"], current_prompt_context := "",
          segment_count := 1 }
        none 0 [] (Except.error "LLM down") 3).2.job.status = "TRANSCRIBED") :=
  ⟨(summarizer_failure_keeps_transcribed.1
      { job := { job_id := "job-b9", job_type := "BATCH", status := "PENDING",
                 original_transcript := none, structured_summary := none,
                 error_message := none, room_id := none, member_id := none,
                 reg_dttm := 0, upd_dttm := 0, upd_id := "system" },
        segments := [], error_logs := [], events := [], llm_calls := 0 }
      ["안녕"] "LLM down" 3 (by decide)).1,
   (summarizer_failure_keeps_transcribed.2
      { job := { job_id := "job-s9", job_type := "REALTIME",
                 status := "PROCESSING", original_transcript := none,
                 structured_summary := none, error_message := none,
                 room_id := none, member_id := none, reg_dttm := 0,
                 upd_dttm := 0, upd_id := "system" },
        segments := [], error_logs := [] }
      { full_transcript := ["김"], current_prompt_context := "",
        segment_count := 1 }
      [] "LLM down" 3 (by decide)).1⟩

theorem is_room_ready_for_summary_iff_witness :
    is_room_ready_for_summary [JobStatus.TRANSCRIBED, JobStatus.COMPLETED] = true :=
  (is_room_ready_for_summary_iff [JobStatus.TRANSCRIBED, JobStatus.COMPLETED]).mpr
    ⟨by decide, by decide⟩

set_option maxRecDepth 100000 in
theorem convert_and_buffer_framing_witness :
    (feed_chunks (fun _ => some (List.replicate 960 0)) [[0]] converterInit).1.length
      = 1 ∧
    (feed_chunks (fun _ => some (List.replicate 960 0)) [[0]] converterInit).2.buffer.length
      = 0 := by
  have h := convert_and_buffer_framing (fun _ => some (List.replicate 960 0)) [[0]]
  exact ⟨by rw [h.2.2.1]; rfl, by rw [h.2.2.2]; rfl⟩
